import Mathlib

/-!
Verification development for the per-frame simulation core of the
limbo-game repository (src/utils/collision.ts, src/game/physics.ts,
src/components/game/renderers/PlayerRenderer.ts rope solver,
src/components/game/Game.tsx orchestrator).

Numbers are embedded as rationals (JS numbers are used here only through
+, -, *, /, min, max, abs and comparisons, all exact on the inputs the
claims quantify over).  The transcendental library calls (Math.sqrt,
Math.sin, Math.cos, Math.atan2, Math.pow) are embedded as explicit
function parameters; a theorem that depends on the value of such a call
carries the defining property of that call (for sqrt: nonnegativity and
squaring back) as a hypothesis at exactly the argument where the source
evaluates it.
-/

namespace Limbo

/-- `Vector2D` from src/types/game.ts. -/
structure Vector2D where
  x : ℚ
  y : ℚ
deriving DecidableEq

/-- `Rectangle` from src/types/game.ts. -/
structure Rectangle where
  x : ℚ
  y : ℚ
  width : ℚ
  height : ℚ
deriving DecidableEq

/-- `PlayerAnimationState` from src/types/game.ts. -/
inductive AnimationState
  | idle | walking | running | jumping | falling
  | grabbing | pushing | swinging | climbing | dying
deriving DecidableEq

/-- `Player` from src/types/game.ts (the ladder fields are unused by the
code the claims cover and are omitted). -/
structure Player where
  position : Vector2D
  velocity : Vector2D
  width : ℚ
  height : ℚ
  isGrounded : Bool
  isJumping : Bool
  isDead : Bool
  isGrabbing : Bool
  isOnRope : Bool
  attachedRopeId : Option String
  ropeGrabCooldown : ℚ
  facingRight : Bool
  animationState : AnimationState
deriving DecidableEq

/-- The `type` tag of `Platform` from src/types/game.ts. -/
inductive PlatformType
  | solid | oneWay | moving | crumbling
deriving DecidableEq

/-- `Platform.movingConfig` from src/types/game.ts. -/
structure MovingConfig where
  startX : ℚ
  endX : ℚ
  startY : ℚ
  endY : ℚ
  speed : ℚ
  currentDirection : ℚ
deriving DecidableEq

/-- `Platform` from src/types/game.ts. -/
structure Platform where
  id : String
  x : ℚ
  y : ℚ
  width : ℚ
  height : ℚ
  type : PlatformType
  movingConfig : Option MovingConfig
deriving DecidableEq

/-- `Hazard` from src/types/game.ts (the `type`/`animationPhase`
presentation fields are unused by the collision code and omitted). -/
structure Hazard where
  id : String
  x : ℚ
  y : ℚ
  width : ℚ
  height : ℚ
  isActive : Bool
deriving DecidableEq

/-- `PushableObject` from src/types/game.ts (the `type` presentation tag
is omitted). -/
structure PushableObject where
  id : String
  x : ℚ
  y : ℚ
  width : ℚ
  height : ℚ
  velocity : Vector2D
  isBeingPushed : Bool
deriving DecidableEq

/-- The `type` tag of `Switch` from src/types/game.ts. -/
inductive SwitchType
  | lever | button | pressurePlate
deriving DecidableEq

/-- `Switch` from src/types/game.ts. -/
structure Switch where
  id : String
  x : ℚ
  y : ℚ
  width : ℚ
  height : ℚ
  type : SwitchType
  isActivated : Bool
  targetIds : List String
deriving DecidableEq

/-- `Rope` from src/types/game.ts. -/
structure Rope where
  id : String
  anchorX : ℚ
  anchorY : ℚ
  length : ℚ
  angle : ℚ
  angularVelocity : ℚ
deriving DecidableEq

/-- `InputState` from src/types/game.ts. -/
structure InputState where
  left : Bool
  right : Bool
  jump : Bool
  action : Bool
deriving DecidableEq

/-- `LevelData` from src/types/game.ts, restricted to the entity
collections the embedded step functions read. -/
structure LevelData where
  platforms : List Platform
  hazards : List Hazard
  pushableObjects : List PushableObject
  switches : List Switch
  ropes : List Rope
deriving DecidableEq

/-- `GameConfig` from src/types/game.ts. -/
structure GameConfig where
  gravity : ℚ
  playerSpeed : ℚ
  playerJumpForce : ℚ
  friction : ℚ
  maxFallSpeed : ℚ

/-- `GAME_CONFIG` from src/game/constants.ts. -/
def GAME_CONFIG : GameConfig :=
  { gravity := 0.8
    playerSpeed := 5
    playerJumpForce := 15
    friction := 0.85
    maxFallSpeed := 18 }

/-- `GROUND_FRICTION` from src/game/constants.ts. -/
def GROUND_FRICTION : ℚ := 0.8

/-- `AIR_FRICTION` from src/game/constants.ts. -/
def AIR_FRICTION : ℚ := 0.95

/-- `ROPE_GRAB_DISTANCE` from src/game/constants.ts. -/
def ROPE_GRAB_DISTANCE : ℚ := 60

/-- `rectIntersect` from src/utils/collision.ts: strict AABB overlap. -/
def rectIntersect (a b : Rectangle) : Bool :=
  if a.x < b.x + b.width ∧ a.x + a.width > b.x ∧
     a.y < b.y + b.height ∧ a.y + a.height > b.y
  then true else false

/-- `pointInRect` from src/utils/collision.ts: inclusive bounds. -/
def pointInRect (point : Vector2D) (rect : Rectangle) : Bool :=
  if point.x ≥ rect.x ∧ point.x ≤ rect.x + rect.width ∧
     point.y ≥ rect.y ∧ point.y ≤ rect.y + rect.height
  then true else false

/-- `getPlayerRect` from src/utils/collision.ts. -/
def getPlayerRect (player : Player) : Rectangle :=
  { x := player.position.x
    y := player.position.y
    width := player.width
    height := player.height }

/-- The rectangle of a platform, built inline in `checkPlatformCollision`. -/
def platformRect (platform : Platform) : Rectangle :=
  { x := platform.x, y := platform.y, width := platform.width, height := platform.height }

/-- The rectangle of a pushable, built inline in `checkPushableCollision`. -/
def pushableRect (pu : PushableObject) : Rectangle :=
  { x := pu.x, y := pu.y, width := pu.width, height := pu.height }

/-- The rectangle of a switch, built inline in the orchestrator. -/
def switchRect (sw : Switch) : Rectangle :=
  { x := sw.x, y := sw.y, width := sw.width, height := sw.height }

/-- Collision direction, the non-null values of `CollisionResult.direction`
from src/utils/collision.ts. -/
inductive Direction
  | top | bottom | left | right
deriving DecidableEq

/-- `CollisionResult` from src/utils/collision.ts (the `entity` echo field,
which merely repeats the argument, is omitted). -/
structure CollisionResult where
  collides : Bool
  direction : Option Direction
  overlap : ℚ
deriving DecidableEq

/-- `clamp` from src/utils/collision.ts. -/
def clamp (value minV maxV : ℚ) : ℚ :=
  max minV (min maxV value)

/-- `checkPlatformCollision` from src/utils/collision.ts. -/
def checkPlatformCollision (player : Player) (platform : Platform)
    (prevPosition : Vector2D) : CollisionResult :=
  let playerRect := getPlayerRect player
  let platRect := platformRect platform
  if !rectIntersect playerRect platRect then
    { collides := false, direction := none, overlap := 0 }
  else
    let overlapLeft := playerRect.x + playerRect.width - platRect.x
    let overlapRight := platRect.x + platRect.width - playerRect.x
    let overlapTop := playerRect.y + playerRect.height - platRect.y
    let overlapBottom := platRect.y + platRect.height - playerRect.y
    let minOverlapX := min overlapLeft overlapRight
    let minOverlapY := min overlapTop overlapBottom
    if platform.type = PlatformType.oneWay then
      -- `wasAbove && player.velocity.y >= 0` in the source
      if prevPosition.y + player.height ≤ platform.y + 5 ∧ player.velocity.y ≥ 0 then
        { collides := true, direction := some Direction.top, overlap := overlapTop }
      else
        { collides := false, direction := none, overlap := 0 }
    else
      if minOverlapX < minOverlapY then
        if overlapLeft < overlapRight then
          { collides := true, direction := some Direction.right, overlap := overlapLeft }
        else
          { collides := true, direction := some Direction.left, overlap := overlapRight }
      else
        if overlapTop < overlapBottom then
          { collides := true, direction := some Direction.top, overlap := overlapTop }
        else
          { collides := true, direction := some Direction.bottom, overlap := overlapBottom }

/-- `checkHazardCollision` from src/utils/collision.ts. -/
def checkHazardCollision (player : Player) (hazard : Hazard) : Bool :=
  if !hazard.isActive then false
  else
    let playerRect := getPlayerRect player
    let hazardRect : Rectangle :=
      { x := hazard.x, y := hazard.y, width := hazard.width, height := hazard.height }
    let shrinkFactor : ℚ := 0.2
    let shrunkHazardRect : Rectangle :=
      { x := hazardRect.x + hazardRect.width * shrinkFactor
        y := hazardRect.y + hazardRect.height * shrinkFactor
        width := hazardRect.width * (1 - shrinkFactor * 2)
        height := hazardRect.height * (1 - shrinkFactor * 2) }
    rectIntersect playerRect shrunkHazardRect

/-- `checkPushableCollision` from src/utils/collision.ts. -/
def checkPushableCollision (player : Player) (pushable : PushableObject)
    (prevPosition : Vector2D) : CollisionResult :=
  let playerRect := getPlayerRect player
  let puRect := pushableRect pushable
  if !rectIntersect playerRect puRect then
    { collides := false, direction := none, overlap := 0 }
  else
    let overlapLeft := playerRect.x + playerRect.width - puRect.x
    let overlapRight := puRect.x + puRect.width - playerRect.x
    let overlapTop := playerRect.y + playerRect.height - puRect.y
    let overlapBottom := puRect.y + puRect.height - playerRect.y
    let minOverlapX := min overlapLeft overlapRight
    let minOverlapY := min overlapTop overlapBottom
    -- `wasAbove && player.velocity.y >= 0` in the source
    if prevPosition.y + player.height ≤ pushable.y + 5 ∧ player.velocity.y ≥ 0 then
      { collides := true, direction := some Direction.top, overlap := overlapTop }
    else
      if minOverlapX < minOverlapY then
        if overlapLeft < overlapRight then
          { collides := true, direction := some Direction.right, overlap := overlapLeft }
        else
          { collides := true, direction := some Direction.left, overlap := overlapRight }
      else
        if overlapTop < overlapBottom then
          { collides := true, direction := some Direction.top, overlap := overlapTop }
        else
          { collides := true, direction := some Direction.bottom, overlap := overlapBottom }

/-- A pushable viewed as a `solid` platform with the same rectangle: the
comparison object for the refinement claim relating the pushable collision
path to the solid-platform collision path. -/
def platformOfPushable (pu : PushableObject) : Platform :=
  { id := pu.id, x := pu.x, y := pu.y, width := pu.width, height := pu.height
    type := PlatformType.solid, movingConfig := none }

/-- `resolveCollision` from src/game/physics.ts: snap the player flush
against the penetrated edge, zero the perpendicular velocity component,
and for a `top` collision mark grounded and clear the jump flag. -/
def resolveCollision (player : Player) (collision : CollisionResult)
    (platform : Platform) : Player :=
  match collision.direction with
  | some Direction.top =>
      { player with
        position := { x := player.position.x, y := platform.y - player.height }
        velocity := { x := player.velocity.x, y := 0 }
        isGrounded := true
        isJumping := false }
  | some Direction.bottom =>
      { player with
        position := { x := player.position.x, y := platform.y + platform.height }
        velocity := { x := player.velocity.x, y := 0 } }
  | some Direction.left =>
      { player with
        position := { x := platform.x + platform.width, y := player.position.y }
        velocity := { x := 0, y := player.velocity.y } }
  | some Direction.right =>
      { player with
        position := { x := platform.x - player.width, y := player.position.y }
        velocity := { x := 0, y := player.velocity.y } }
  | none => player

/-- The pushable-collision branch inlined in `updatePlayerPhysics`
(src/game/physics.ts lines 102-128): like `resolveCollision` against the
pushable's rectangle, plus `isGrabbing` on side contact with the action
input held. -/
def resolvePushableCollision (player : Player) (pushable : PushableObject)
    (input : InputState) (collision : CollisionResult) : Player :=
  match collision.direction with
  | some Direction.top =>
      { player with
        position := { x := player.position.x, y := pushable.y - player.height }
        velocity := { x := player.velocity.x, y := 0 }
        isGrounded := true
        isJumping := false }
  | some Direction.bottom =>
      { player with
        position := { x := player.position.x, y := pushable.y + pushable.height }
        velocity := { x := player.velocity.x, y := 0 } }
  | some Direction.right =>
      { player with
        position := { x := pushable.x - player.width, y := player.position.y }
        velocity := { x := 0, y := player.velocity.y }
        isGrabbing := if input.action then true else player.isGrabbing }
  | some Direction.left =>
      { player with
        position := { x := pushable.x + pushable.width, y := player.position.y }
        velocity := { x := 0, y := player.velocity.y }
        isGrabbing := if input.action then true else player.isGrabbing }
  | none => player

/-- `getAnimationState` from src/game/physics.ts. -/
def getAnimationState (player : Player) (_input : InputState) : AnimationState :=
  if player.isDead then AnimationState.dying
  else if player.isGrabbing then AnimationState.pushing
  else if !player.isGrounded then
    (if player.velocity.y < 0 then AnimationState.jumping else AnimationState.falling)
  else if |player.velocity.x| > 0.5 then
    (if |player.velocity.x| > GAME_CONFIG.playerSpeed * 0.8 then AnimationState.running
     else AnimationState.walking)
  else AnimationState.idle

/-- The kinematic phase of `updatePlayerPhysics` (src/game/physics.ts lines
46-88): horizontal target and facing, acceleration easing, friction
(`Math.pow(friction, dt)` is the parameter `powf`), jump impulse, variable
jump height, gravity with symmetric fall-speed clamp, position integration
and the pre-collision grounded reset.  `dt` is the already-normalized
delta-time. -/
def integrateStep (powf : ℚ → ℚ → ℚ) (player : Player) (input : InputState)
    (dt : ℚ) : Player :=
  let targetVelX : ℚ :=
    if input.right then GAME_CONFIG.playerSpeed
    else if input.left then -GAME_CONFIG.playerSpeed
    else 0
  let facing1 :=
    if input.right then true else if input.left then false else player.facingRight
  let acceleration : ℚ := if player.isGrounded then 0.3 else 0.15
  let vx1 := player.velocity.x + (targetVelX - player.velocity.x) * acceleration * dt
  let friction := if player.isGrounded then GROUND_FRICTION else AIR_FRICTION
  let vx2 := if |targetVelX| < 0.1 then vx1 * powf friction dt else vx1
  let doJump := input.jump && player.isGrounded && !player.isJumping
  let vy0 := if doJump then -GAME_CONFIG.playerJumpForce else player.velocity.y
  let jumping1 := if doJump then true else player.isJumping
  let vy1 :=
    if input.jump = false ∧ vy0 < -GAME_CONFIG.playerJumpForce * 0.5 then
      -GAME_CONFIG.playerJumpForce * 0.5
    else vy0
  let vy2 := clamp (vy1 + GAME_CONFIG.gravity * dt)
    (-GAME_CONFIG.maxFallSpeed) GAME_CONFIG.maxFallSpeed
  { player with
    position := { x := player.position.x + vx2 * dt, y := player.position.y + vy2 * dt }
    velocity := { x := vx2, y := vy2 }
    facingRight := facing1
    isJumping := jumping1
    isGrounded := false }

/-- `updatePlayerPhysics` from src/game/physics.ts lines 29-141 (the copy
with the on-rope skip, the one the orchestrator uses): dead and on-rope
players pass through; otherwise integrate kinematics, resolve against every
platform then every pushable in array order, recompute the animation state
and clear the jump flag when grounded. -/
def updatePlayerPhysics (powf : ℚ → ℚ → ℚ) (player : Player) (input : InputState)
    (levelData : LevelData) (deltaTime : ℚ) : Player :=
  if player.isDead then player
  else if player.isOnRope then player
  else
    let dt := deltaTime / 16.67
    let prevPosition := player.position
    let p1 := integrateStep powf player input dt
    let p2 := levelData.platforms.foldl
      (fun pl platform =>
        let collision := checkPlatformCollision pl platform prevPosition
        if collision.collides then resolveCollision pl collision platform else pl)
      p1
    let p3 := levelData.pushableObjects.foldl
      (fun pl pushable =>
        let collision := checkPushableCollision pl pushable prevPosition
        if collision.collides then resolvePushableCollision pl pushable input collision
        else pl)
      p2
    let p4 := { p3 with animationState := getAnimationState p3 input }
    if p4.isGrounded then { p4 with isJumping := false } else p4

/-- The body mapped over the platform array by `updateMovingPlatforms`
(src/game/physics.ts lines 270-305): advance along each axis with distinct
endpoints by `speed * direction * dt`, clamping to the endpoint and setting
the direction on reaching or passing it.  The vertical pass reads the
original direction for motion (as the source does through `config`) and its
endpoint hits overwrite the stored direction. -/
def movingPlatformStep (deltaTime : ℚ) (platform : Platform) : Platform :=
  if platform.type ≠ PlatformType.moving then platform
  else
    match platform.movingConfig with
    | none => platform
    | some config =>
        let dt := deltaTime / 16.67
        let hx :=
          if config.startX ≠ config.endX then
            let xm := platform.x + config.speed * config.currentDirection * dt
            if xm ≥ config.endX then (config.endX, (-1 : ℚ))
            else if xm ≤ config.startX then (config.startX, (1 : ℚ))
            else (xm, config.currentDirection)
          else (platform.x, config.currentDirection)
        let vy :=
          if config.startY ≠ config.endY then
            let ym := platform.y + config.speed * config.currentDirection * dt
            if ym ≥ config.endY then (config.endY, (-1 : ℚ))
            else if ym ≤ config.startY then (config.startY, (1 : ℚ))
            else (ym, hx.2)
          else (platform.y, hx.2)
        { platform with
          x := hx.1
          y := vy.1
          movingConfig := some { config with currentDirection := vy.2 } }

/-- `updateMovingPlatforms` from src/game/physics.ts. -/
def updateMovingPlatforms (platforms : List Platform) (deltaTime : ℚ) : List Platform :=
  platforms.map (movingPlatformStep deltaTime)

/-!
The soft-spring rope solver, from
src/components/game/renderers/PlayerRenderer.ts lines 1170-1375 (the
constraint-based model the spec designates as authoritative).  The numeric
constants `ROPE_SWING_ACCEL`, `ROPE_AIR_RESISTANCE` and
`ROPE_MAX_SWING_SPEED` are imported there from game/constants but their
defining file is not part of the available sources, so they appear as
parameters `swingAccel`, `airRes`, `maxSwing`; every theorem below holds
for all of their values.
-/

/-- Steps 1-3 of `updateRopePhysics`: gravity at 0.8 scale, tangent swing
force from held input (skipped when the anchor distance reported by
`sqrtF` is not positive), air resistance and the horizontal speed clamp.
Returns the new velocity and the facing flag.  `dt` is already
normalized. -/
def ropeSwingVelocity (sqrtF : ℚ → ℚ) (swingAccel airRes maxSwing : ℚ)
    (rope : Rope) (player : Player) (input : InputState) (dt : ℚ) :
    ℚ × ℚ × Bool :=
  let playerCenterX := player.position.x + player.width / 2
  let playerCenterY := player.position.y + player.height / 2
  let vy1 := player.velocity.y + GAME_CONFIG.gravity * dt * 0.8
  let ropeVecX := playerCenterX - rope.anchorX
  let ropeVecY := playerCenterY - rope.anchorY
  let ropeLen := sqrtF (ropeVecX * ropeVecX + ropeVecY * ropeVecY)
  let swing :=
    if ropeLen > 0 then
      let tangentX := ropeVecY / ropeLen
      let tangentY := -ropeVecX / ropeLen
      let afterLeft :=
        if input.left then
          (player.velocity.x - tangentX * swingAccel * dt,
           vy1 - tangentY * swingAccel * dt, false)
        else (player.velocity.x, vy1, player.facingRight)
      if input.right then
        (afterLeft.1 + tangentX * swingAccel * dt,
         afterLeft.2.1 + tangentY * swingAccel * dt, true)
      else afterLeft
    else (player.velocity.x, vy1, player.facingRight)
  let vx3 := swing.1 * airRes
  let vy3 := swing.2.1 * airRes
  (clamp vx3 (-maxSwing) maxSwing, vy3, swing.2.2)

/-- Step 4 of `updateRopePhysics`: the player center after integrating the
post-swing velocity, before the rope constraint is applied. -/
def ropeCenterAfterMove (sqrtF : ℚ → ℚ) (swingAccel airRes maxSwing : ℚ)
    (rope : Rope) (player : Player) (input : InputState) (deltaTime : ℚ) :
    ℚ × ℚ :=
  let dt := deltaTime / 16.67
  let v := ropeSwingVelocity sqrtF swingAccel airRes maxSwing rope player input dt
  (player.position.x + player.width / 2 + v.1 * dt,
   player.position.y + player.height / 2 + v.2.1 * dt)

/-- The squared anchor distance of the step-4 center: the argument the
source passes to `Math.sqrt` to obtain `newDist` in step 5 of
`updateRopePhysics`. -/
def ropeMoveDistSq (sqrtF : ℚ → ℚ) (swingAccel airRes maxSwing : ℚ)
    (rope : Rope) (player : Player) (input : InputState) (deltaTime : ℚ) : ℚ :=
  let c4 := ropeCenterAfterMove sqrtF swingAccel airRes maxSwing rope player input deltaTime
  (c4.1 - rope.anchorX) * (c4.1 - rope.anchorX) +
    (c4.2 - rope.anchorY) * (c4.2 - rope.anchorY)

/-- The squared Euclidean distance from a player's center to a rope's
anchor. -/
def playerCenterDistSq (player : Player) (rope : Rope) : ℚ :=
  (player.position.x + player.width / 2 - rope.anchorX) *
      (player.position.x + player.width / 2 - rope.anchorX) +
    (player.position.y + player.height / 2 - rope.anchorY) *
      (player.position.y + player.height / 2 - rope.anchorY)

/-- `updateRopePhysics` from src/components/game/renderers/PlayerRenderer.ts
lines 1170-1288: the soft spring-and-tangent model.  `sqrtF` embeds
`Math.sqrt` and `atan2F` embeds `Math.atan2` (used only for the rendering
angle). -/
def updateRopePhysics (sqrtF : ℚ → ℚ) (atan2F : ℚ → ℚ → ℚ)
    (swingAccel airRes maxSwing : ℚ) (rope : Rope) (player : Player)
    (input : InputState) (deltaTime : ℚ) : Rope × Player :=
  -- `if (!player.isOnRope || player.attachedRopeId !== rope.id) return` in the source
  if ¬(player.isOnRope = true ∧ player.attachedRopeId = some rope.id) then
    (rope, player)
  else
    let dt := deltaTime / 16.67
    let v := ropeSwingVelocity sqrtF swingAccel airRes maxSwing rope player input dt
    let c4 := ropeCenterAfterMove sqrtF swingAccel airRes maxSwing rope player input deltaTime
    let newRopeVecX := c4.1 - rope.anchorX
    let newRopeVecY := c4.2 - rope.anchorY
    let newDist := sqrtF (newRopeVecX * newRopeVecX + newRopeVecY * newRopeVecY)
    let constrained :=
      if newDist > 0 then
        let radialX := newRopeVecX / newDist
        let radialY := newRopeVecY / newDist
        if newDist > rope.length then
          let overstretch := newDist - rope.length
          let springStrength : ℚ := 0.3
          let dampening : ℚ := 0.8
          let pullForce := overstretch * springStrength
          let cx5 := c4.1 - radialX * pullForce
          let cy5 := c4.2 - radialY * pullForce
          let radialVel := v.1 * radialX + v.2.1 * radialY
          let vel5 :=
            if radialVel > 0 then
              (v.1 - radialVel * radialX * dampening, v.2.1 - radialVel * radialY * dampening)
            else (v.1, v.2.1)
          let maxStretch := rope.length * 1.05
          let c6 :=
            if newDist > maxStretch then
              (rope.anchorX + radialX * maxStretch, rope.anchorY + radialY * maxStretch)
            else (cx5, cy5)
          (c6, vel5)
        else if newDist < rope.length * 0.95 then
          let slack := rope.length - newDist
          let gentlePull := slack * 0.02
          (c4, (v.1 + radialX * gentlePull, v.2.1 + radialY * gentlePull))
        else (c4, (v.1, v.2.1))
      else (c4, (v.1, v.2.1))
    let finalRopeVecX := constrained.1.1 - rope.anchorX
    let finalRopeVecY := constrained.1.2 - rope.anchorY
    let newRope := { rope with
      angle := atan2F finalRopeVecX finalRopeVecY
      angularVelocity := constrained.2.1 * 0.01 }
    let newPlayer := { player with
      position := { x := constrained.1.1 - player.width / 2
                    y := constrained.1.2 - player.height / 2 }
      velocity := { x := constrained.2.1, y := constrained.2.2 }
      facingRight := v.2.2
      animationState := AnimationState.swinging
      isGrounded := false
      isJumping := false }
    (newRope, newPlayer)

/-- The per-rope attach test inside `checkRopeGrab`
(src/components/game/renderers/PlayerRenderer.ts lines 1332-1372): closest
point on the rope line restricted to the parametric range [0.3, 1],
distance test against `grabDistance`, and on success the attached player
with a 15-frame release cooldown.  Walks the rope list in order. -/
def ropeGrabTry (sinF cosF sqrtF : ℚ → ℚ) (player : Player)
    (input : InputState) (grabDistance : ℚ) : List Rope → Option Player
  | [] => none
  | rope :: rest =>
      let playerCenterX := player.position.x + player.width / 2
      let playerCenterY := player.position.y + player.height / 2
      let ropeEndX := rope.anchorX + sinF rope.angle * rope.length
      let ropeEndY := rope.anchorY + cosF rope.angle * rope.length
      let ropeVecX := ropeEndX - rope.anchorX
      let ropeVecY := ropeEndY - rope.anchorY
      let playerToAnchorX := playerCenterX - rope.anchorX
      let playerToAnchorY := playerCenterY - rope.anchorY
      let ropeLen := rope.length
      let dot := (playerToAnchorX * ropeVecX + playerToAnchorY * ropeVecY) / (ropeLen * ropeLen)
      let t := clamp dot 0.3 1
      let closestX := rope.anchorX + ropeVecX * t
      let closestY := rope.anchorY + ropeVecY * t
      let dx := playerCenterX - closestX
      let dy := playerCenterY - closestY
      let distance := sqrtF (dx * dx + dy * dy)
      if distance < grabDistance then
        some { player with
          isOnRope := true
          attachedRopeId := some rope.id
          isGrounded := false
          isJumping := false
          animationState := AnimationState.swinging
          ropeGrabCooldown := 15 }
      else ropeGrabTry sinF cosF sqrtF player input grabDistance rest

/-- `checkRopeGrab` from src/components/game/renderers/PlayerRenderer.ts
lines 1291-1375: while attached, decrement the cooldown and release on a
jump input once the decremented cooldown is zero (small upward impulse
`velocity.y = min(velocity.y - 5, -3)`); while detached, attach to the
first rope within `grabDistance` if the action input is held in the air.
The rope list is returned unchanged on every path, as in the source. -/
def checkRopeGrab (sinF cosF sqrtF : ℚ → ℚ) (player : Player)
    (ropes : List Rope) (input : InputState) (grabDistance : ℚ) :
    Player × List Rope :=
  if player.isOnRope then
    let cooldown := max 0 (player.ropeGrabCooldown - 1)
    -- `if (input.jump && cooldown === 0)` in the source
    if input.jump = true ∧ cooldown = 0 then
      ({ player with
          isOnRope := false
          attachedRopeId := none
          ropeGrabCooldown := 0
          velocity := { x := player.velocity.x
                        y := min (player.velocity.y - 5) (-3) }
          isJumping := true
          animationState := AnimationState.jumping }, ropes)
    else if cooldown ≠ player.ropeGrabCooldown then
      ({ player with ropeGrabCooldown := cooldown }, ropes)
    else (player, ropes)
  else
    -- `const isInAir = !player.isGrounded || player.velocity.y < 0;
    --  if (!input.action || !isInAir) return` in the source, written as the
    -- positive condition for proceeding
    if input.action = true ∧ (player.isGrounded = false ∨ player.velocity.y < 0) then
      match ropeGrabTry sinF cosF sqrtF player input grabDistance ropes with
      | some attached => (attached, ropes)
      | none => (player, ropes)
    else (player, ropes)

/-- The rope-processing segment of the orchestrator's `gameUpdate`
(src/components/game/Game.tsx lines 204-219): `checkRopeGrab`, then, if the
player is attached and the attached rope id resolves in the rope list, the
rope physics step (updating that rope in place); a dangling id leaves
everything as `checkRopeGrab` returned it. -/
def ropeFrameStep (sinF cosF sqrtF : ℚ → ℚ) (atan2F : ℚ → ℚ → ℚ)
    (swingAccel airRes maxSwing : ℚ) (player : Player) (ropes : List Rope)
    (input : InputState) (grabDistance deltaTime : ℚ) : Player × List Rope :=
  let res := checkRopeGrab sinF cosF sqrtF player ropes input grabDistance
  let p1 := res.1
  match p1.attachedRopeId, p1.isOnRope with
  | some rid, true =>
      match res.2.find? (fun r => r.id = rid) with
      | some attachedRope =>
          let rr := updateRopePhysics sqrtF atan2F swingAccel airRes maxSwing
            attachedRope p1 input deltaTime
          (rr.2, res.2.map (fun r => if r.id = attachedRope.id then rr.1 else r))
      | none => (p1, res.2)
  | _, _ => (p1, res.2)

/-- The pressure-plate overlap test inlined in `gameUpdate`
(src/components/game/Game.tsx lines 277-294): the player rectangle or any
pushable rectangle overlaps the plate. -/
def isPlatePressed (playerRect : Rectangle) (pushables : List PushableObject)
    (sw : Switch) : Bool :=
  rectIntersect playerRect (switchRect sw) ||
    pushables.any (fun pu => rectIntersect (pushableRect pu) (switchRect sw))

/-- One switch of the orchestrator's switch pass
(src/components/game/Game.tsx lines 268-319): a pressure plate tracks the
live overlap and, on a change, writes the inverse into its target hazards;
a lever or button latches on first touch with the action input and turns
its targets off. -/
def processSwitch (playerRect : Rectangle) (pushables : List PushableObject)
    (action : Bool) (sw : Switch) (hazards : List Hazard) :
    Switch × List Hazard :=
  if sw.type = SwitchType.pressurePlate then
    let isPressed := isPlatePressed playerRect pushables sw
    let hazards1 :=
      if isPressed ≠ sw.isActivated then
        hazards.map (fun h =>
          if h.id ∈ sw.targetIds then { h with isActive := !isPressed } else h)
      else hazards
    ({ sw with isActivated := isPressed }, hazards1)
  else if rectIntersect playerRect (switchRect sw) && action && !sw.isActivated then
    ({ sw with isActivated := true },
     hazards.map (fun h =>
       if h.id ∈ sw.targetIds then { h with isActive := false } else h))
  else (sw, hazards)

/-- The orchestrator's switch pass: `levelData.switches.map(...)` with the
closure mutating `levelData.hazards` in place, i.e. a left-to-right
traversal threading the hazard list. -/
def switchHazardPass (playerRect : Rectangle) (pushables : List PushableObject)
    (action : Bool) : List Switch → List Hazard → List Switch × List Hazard
  | [], hazards => ([], hazards)
  | sw :: rest, hazards =>
      let r1 := processSwitch playerRect pushables action sw hazards
      let r2 := switchHazardPass playerRect pushables action rest r1.2
      (r1.1 :: r2.1, r2.2)

/-!
Concrete states used as inputs by witnesses and counterexamples below.
These are not source translations; they are sample inputs.  `zeroFn`
stands in for a transcendental call whose value the statement at hand does
not depend on.
-/

/-- A constant-zero stand-in for a transcendental call parameter. -/
def zeroFn : ℚ → ℚ := fun _ => 0

/-- A sample rope anchored at the origin. -/
def sampleRope : Rope :=
  { id := "r1", anchorX := 0, anchorY := 0, length := 10, angle := 0, angularVelocity := 0 }

/-- A sample airborne player at the origin. -/
def airbornePlayer : Player :=
  { position := { x := 0, y := 0 }, velocity := { x := 0, y := 0 }
    width := 30, height := 50
    isGrounded := false, isJumping := false, isDead := false
    isGrabbing := false, isOnRope := false, attachedRopeId := none
    ropeGrabCooldown := 0, facingRight := true
    animationState := AnimationState.falling }

/-- The sample player attached to `sampleRope` with a given cooldown. -/
def onRopePlayer (cooldown : ℚ) : Player :=
  { airbornePlayer with
    isOnRope := true, attachedRopeId := some "r1", ropeGrabCooldown := cooldown
    animationState := AnimationState.swinging }

/-- No input held. -/
def inputNone : InputState := { left := false, right := false, jump := false, action := false }

/-- Only the jump input held. -/
def inputJump : InputState := { left := false, right := false, jump := true, action := false }

/-- Only the action input held. -/
def inputAction : InputState := { left := false, right := false, jump := false, action := true }

/-! ## General lemmas about the primitives -/

lemma rectIntersect_eq_true_iff (a b : Rectangle) :
    rectIntersect a b = true ↔
      (a.x < b.x + b.width ∧ a.x + a.width > b.x ∧
       a.y < b.y + b.height ∧ a.y + a.height > b.y) := by
  by_cases h : (a.x < b.x + b.width ∧ a.x + a.width > b.x ∧
      a.y < b.y + b.height ∧ a.y + a.height > b.y) <;>
    simp [rectIntersect, h]

lemma rectIntersect_eq_false_iff (a b : Rectangle) :
    rectIntersect a b = false ↔
      ¬(a.x < b.x + b.width ∧ a.x + a.width > b.x ∧
        a.y < b.y + b.height ∧ a.y + a.height > b.y) := by
  rw [← rectIntersect_eq_true_iff, Bool.not_eq_true, Bool.eq_false_iff, ne_eq]

lemma solid_ne_oneWay : PlatformType.solid ≠ PlatformType.oneWay :=
  fun h => PlatformType.noConfusion h

lemma getPlayerRect_update_anim (p : Player) (a : AnimationState) :
    getPlayerRect { p with animationState := a } = getPlayerRect p := rfl

lemma getPlayerRect_update_jump (p : Player) (b : Bool) :
    getPlayerRect { p with isJumping := b } = getPlayerRect p := rfl

lemma collides_of_not_oneWay (player : Player) (platform : Platform)
    (prev : Vector2D) (h : platform.type ≠ PlatformType.oneWay) :
    (checkPlatformCollision player platform prev).collides =
      rectIntersect (getPlayerRect player) (platformRect platform) := by
  cases hri : rectIntersect (getPlayerRect player) (platformRect platform) with
  | false => simp [checkPlatformCollision, hri]
  | true =>
    simp only [checkPlatformCollision, hri, Bool.not_true, Bool.false_eq_true, if_false, h,
      reduceIte]
    split_ifs <;> rfl

lemma resolve_no_overlap (player : Player) (platform : Platform) (prev : Vector2D)
    (h : platform.type ≠ PlatformType.oneWay)
    (hc : (checkPlatformCollision player platform prev).collides = true) :
    rectIntersect
      (getPlayerRect
        (resolveCollision player (checkPlatformCollision player platform prev) platform))
      (platformRect platform) = false := by
  cases hri : rectIntersect (getPlayerRect player) (platformRect platform) with
  | false =>
    rw [collides_of_not_oneWay player platform prev h, hri] at hc
    cases hc
  | true =>
    simp only [checkPlatformCollision, hri, Bool.not_true, Bool.false_eq_true, if_false, h,
      reduceIte]
    split_ifs <;>
      · simp only [resolveCollision, getPlayerRect, platformRect]
        rw [rectIntersect_eq_false_iff]
        dsimp only
        rintro ⟨a1, a2, a3, a4⟩
        simp only [gt_iff_lt] at a2 a4
        linarith

/-! ## C1: the no-overlap-with-solids guarantee -/

/-- C1 counterexample: with two solid platforms, resolving the player out of
the second platform (checked later in the array) pushes it into the first
platform (already checked, never revisited), so `updatePlayerPhysics`
returns a player strictly overlapping a solid platform of the level even
though the player is alive, off-rope, and the frame's displacement is far
below one body-height. -/
theorem c1_counterexample :
    (let powf : ℚ → ℚ → ℚ := fun _ _ => 1
     let player : Player :=
       { position := { x := 80, y := 50 }, velocity := { x := 0, y := 0 }
         width := 30, height := 50
         isGrounded := false, isJumping := false, isDead := false
         isGrabbing := false, isOnRope := false, attachedRopeId := none
         ropeGrabCooldown := 0, facingRight := true
         animationState := AnimationState.falling }
     let input : InputState := { left := false, right := true, jump := false, action := false }
     let platformB : Platform :=
       { id := "B", x := 45, y := 0, width := 30, height := 200
         type := PlatformType.solid, movingConfig := none }
     let platformA : Platform :=
       { id := "A", x := 100, y := 0, width := 50, height := 200
         type := PlatformType.solid, movingConfig := none }
     let levelData : LevelData :=
       { platforms := [platformB, platformA], hazards := [], pushableObjects := []
         switches := [], ropes := [] }
     player.isDead = false ∧ player.isOnRope = false ∧
     platformB.type = PlatformType.solid ∧ platformB ∈ levelData.platforms ∧
     (let p1 := integrateStep powf player input (16.67 / 16.67)
      (p1.position.x - player.position.x) ^ 2 + (p1.position.y - player.position.y) ^ 2
        < player.height ^ 2) ∧
     rectIntersect
       (getPlayerRect (updatePlayerPhysics powf player input levelData 16.67))
       (platformRect platformB) = true) := by
  refine ⟨rfl, rfl, rfl, by norm_num, ?_, ?_⟩
  · norm_num [integrateStep, clamp, GAME_CONFIG, GROUND_FRICTION, AIR_FRICTION,
      abs_eq_max_neg, max_def, min_def]
  · norm_num [updatePlayerPhysics, integrateStep, checkPlatformCollision, resolveCollision,
      resolvePushableCollision, getAnimationState, getPlayerRect, platformRect, rectIntersect,
      clamp, GAME_CONFIG, GROUND_FRICTION, AIR_FRICTION, abs_eq_max_neg, max_def, min_def,
      List.foldl_cons, List.foldl_nil, solid_ne_oneWay]

/-- C1 amended: the guarantee holds for a level whose platform array is a
single `solid` platform and which has no pushable objects: for every input,
delta-time (in particular one whose frame displacement is below one
body-height), and alive, off-rope player, the returned player's rectangle
does not strictly overlap that platform.  (With several platforms or
pushables, later resolutions can push the player back into
earlier-resolved solids, as `c1_counterexample` shows.) -/
theorem c1_single_solid_platform_no_overlap (powf : ℚ → ℚ → ℚ) (player : Player)
    (input : InputState) (platform : Platform) (levelData : LevelData) (deltaTime : ℚ)
    (hlev : levelData.platforms = [platform])
    (hpush : levelData.pushableObjects = [])
    (hdead : player.isDead = false) (hrope : player.isOnRope = false)
    (htype : platform.type = PlatformType.solid)
    (hdisp : (let p1 := integrateStep powf player input (deltaTime / 16.67)
      (p1.position.x - player.position.x) ^ 2 + (p1.position.y - player.position.y) ^ 2
        < player.height ^ 2)) :
    rectIntersect
      (getPlayerRect (updatePlayerPhysics powf player input levelData deltaTime))
      (platformRect platform) = false := by
  clear hdisp
  have hsolid : platform.type ≠ PlatformType.oneWay := by
    rw [htype]; intro hh; cases hh
  simp only [updatePlayerPhysics, hdead, hrope, Bool.false_eq_true, if_false, hlev, hpush,
    List.foldl_cons, List.foldl_nil]
  generalize integrateStep powf player input (deltaTime / 16.67) = p1
  by_cases hc : (checkPlatformCollision p1 platform player.position).collides = true
  · simp only [hc, if_true, reduceIte]
    have hres := resolve_no_overlap p1 platform player.position hsolid hc
    generalize resolveCollision p1 (checkPlatformCollision p1 platform player.position)
      platform = q at hres ⊢
    cases hgq : q.isGrounded <;>
      · simp only [hgq, Bool.false_eq_true, if_true, if_false, reduceIte]
        simpa [getPlayerRect] using hres
  · have hcf : (checkPlatformCollision p1 platform player.position).collides = false :=
      Bool.eq_false_iff.mpr hc
    simp only [hcf, Bool.false_eq_true, if_false, reduceIte]
    have hri := collides_of_not_oneWay p1 platform player.position hsolid
    rw [hcf] at hri
    have hres : rectIntersect (getPlayerRect p1) (platformRect platform) = false := hri.symm
    cases hgq : p1.isGrounded <;>
      · simp only [hgq, Bool.false_eq_true, if_true, if_false, reduceIte]
        simpa [getPlayerRect] using hres

/-- Witness for the amended C1: a far-away player and a lone solid platform
end the frame without overlap. -/
theorem c1_single_solid_platform_no_overlap_witness :
    rectIntersect
      (getPlayerRect (updatePlayerPhysics (fun _ _ => 1)
        { position := { x := 0, y := 0 }, velocity := { x := 0, y := 0 }
          width := 30, height := 50
          isGrounded := false, isJumping := false, isDead := false
          isGrabbing := false, isOnRope := false, attachedRopeId := none
          ropeGrabCooldown := 0, facingRight := true
          animationState := AnimationState.falling }
        { left := false, right := false, jump := false, action := false }
        { platforms := [{ id := "S", x := 1000, y := 1000, width := 10, height := 10
                          type := PlatformType.solid, movingConfig := none }]
          hazards := [], pushableObjects := [], switches := [], ropes := [] }
        16.67))
      (platformRect { id := "S", x := 1000, y := 1000, width := 10, height := 10
                      type := PlatformType.solid, movingConfig := none }) = false :=
  c1_single_solid_platform_no_overlap (fun _ _ => 1)
    { position := { x := 0, y := 0 }, velocity := { x := 0, y := 0 }
      width := 30, height := 50
      isGrounded := false, isJumping := false, isDead := false
      isGrabbing := false, isOnRope := false, attachedRopeId := none
      ropeGrabCooldown := 0, facingRight := true
      animationState := AnimationState.falling }
    { left := false, right := false, jump := false, action := false }
    { id := "S", x := 1000, y := 1000, width := 10, height := 10
      type := PlatformType.solid, movingConfig := none }
    { platforms := [{ id := "S", x := 1000, y := 1000, width := 10, height := 10
                      type := PlatformType.solid, movingConfig := none }]
      hazards := [], pushableObjects := [], switches := [], ropes := [] }
    16.67 rfl rfl rfl rfl rfl
    (by norm_num [integrateStep, clamp, GAME_CONFIG, GROUND_FRICTION, AIR_FRICTION,
      abs_eq_max_neg, max_def, min_def])

/-! ## C10: hazard hitbox inset and inactive hazards -/

/-- C10: `checkHazardCollision` registers a hit exactly when the hazard is
active and the player's rectangle strictly overlaps the 20%-inset rectangle
`(X + 0.2W, Y + 0.2H, 0.6W, 0.6H)`; in particular a deactivated hazard can
never register a hit, for every player. -/
theorem c10_hazard_inset_hitbox (player : Player) (hazard : Hazard) :
    checkHazardCollision player hazard =
      (hazard.isActive &&
        rectIntersect (getPlayerRect player)
          { x := hazard.x + 0.2 * hazard.width
            y := hazard.y + 0.2 * hazard.height
            width := 0.6 * hazard.width
            height := 0.6 * hazard.height }) := by
  cases hA : hazard.isActive with
  | false => simp [checkHazardCollision, hA]
  | true =>
    have hrect :
        ({ x := hazard.x + hazard.width * 0.2
           y := hazard.y + hazard.height * 0.2
           width := hazard.width * (1 - 0.2 * 2)
           height := hazard.height * (1 - 0.2 * 2) } : Rectangle) =
        { x := hazard.x + 0.2 * hazard.width
          y := hazard.y + 0.2 * hazard.height
          width := 0.6 * hazard.width
          height := 0.6 * hazard.height } := by
      simp only [Rectangle.mk.injEq]
      refine ⟨by ring, by ring, by rw [mul_comm]; norm_num, by rw [mul_comm]; norm_num⟩
    simp only [checkHazardCollision, hA, Bool.not_true, Bool.false_eq_true,
      if_false, Bool.true_and, hrect]

/-! ## C2: one-way platform collision -/

/-- C2: for a platform of type `one-way`, `checkPlatformCollision` reports a
collision if and only if the rectangles strictly overlap, the previous
bottom edge satisfies `prevPosition.y + player.height <= platform.y + 5`,
and `player.velocity.y >= 0`; the reported direction is then `top`, and in
every other case no collision (null direction) is reported. -/
theorem c2_one_way_collision (player : Player) (platform : Platform)
    (prevPosition : Vector2D) (htype : platform.type = PlatformType.oneWay) :
    ((checkPlatformCollision player platform prevPosition).collides = true ↔
      (rectIntersect (getPlayerRect player) (platformRect platform) = true ∧
       prevPosition.y + player.height ≤ platform.y + 5 ∧
       0 ≤ player.velocity.y)) ∧
    ((checkPlatformCollision player platform prevPosition).collides = true →
      (checkPlatformCollision player platform prevPosition).direction = some Direction.top) ∧
    ((checkPlatformCollision player platform prevPosition).collides = false →
      (checkPlatformCollision player platform prevPosition).direction = none) := by
  cases hri : rectIntersect (getPlayerRect player) (platformRect platform) with
  | false =>
    simp [checkPlatformCollision, hri]
  | true =>
    simp only [checkPlatformCollision, hri, Bool.not_true, Bool.false_eq_true, if_false,
      htype, if_true, reduceIte, Bool.and_eq_true, decide_eq_true_eq, ge_iff_le]
    by_cases hW : prevPosition.y + player.height ≤ platform.y + 5
    · by_cases hV : 0 ≤ player.velocity.y
      · simp [hW, hV]
      · simp [hW, hV]
    · simp [hW]

/-! ## C3: solid platform minimum-overlap resolution -/

/-- C3: for a player strictly overlapping a `solid` platform,
`checkPlatformCollision` picks the axis with the smaller minimum overlap
and on it the direction with the smaller overlap, and `resolveCollision`
snaps the player flush against the penetrated edge, zeroes the velocity
component perpendicular to that edge, and for a `top` collision sets
`isGrounded` and clears `isJumping`. -/
theorem c3_solid_min_overlap_resolution (player : Player) (platform : Platform)
    (prevPosition : Vector2D) (htype : platform.type = PlatformType.solid)
    (hint : rectIntersect (getPlayerRect player) (platformRect platform) = true) :
    (checkPlatformCollision player platform prevPosition).collides = true ∧
    (let oL := player.position.x + player.width - platform.x
     let oR := platform.x + platform.width - player.position.x
     let oT := player.position.y + player.height - platform.y
     let oB := platform.y + platform.height - player.position.y
     let c := checkPlatformCollision player platform prevPosition
     (min oL oR < min oT oB →
       (oL < oR →
         c.direction = some Direction.right ∧ c.overlap = oL ∧
         resolveCollision player c platform =
           { player with
             position := { x := platform.x - player.width, y := player.position.y }
             velocity := { x := 0, y := player.velocity.y } }) ∧
       (¬oL < oR →
         c.direction = some Direction.left ∧ c.overlap = oR ∧
         resolveCollision player c platform =
           { player with
             position := { x := platform.x + platform.width, y := player.position.y }
             velocity := { x := 0, y := player.velocity.y } })) ∧
     (¬min oL oR < min oT oB →
       (oT < oB →
         c.direction = some Direction.top ∧ c.overlap = oT ∧
         resolveCollision player c platform =
           { player with
             position := { x := player.position.x, y := platform.y - player.height }
             velocity := { x := player.velocity.x, y := 0 }
             isGrounded := true
             isJumping := false }) ∧
       (¬oT < oB →
         c.direction = some Direction.bottom ∧ c.overlap = oB ∧
         resolveCollision player c platform =
           { player with
             position := { x := player.position.x, y := platform.y + platform.height }
             velocity := { x := player.velocity.x, y := 0 } }))) := by
  have hne : platform.type ≠ PlatformType.oneWay := by
    rw [htype]; intro h; cases h
  simp only [getPlayerRect, platformRect] at hint
  simp only [checkPlatformCollision, hint, Bool.not_true, Bool.false_eq_true, if_false,
    hne, reduceIte, getPlayerRect, platformRect]
  by_cases h1 :
      min (player.position.x + player.width - platform.x)
          (platform.x + platform.width - player.position.x) <
        min (player.position.y + player.height - platform.y)
          (platform.y + platform.height - player.position.y)
  · by_cases h2 :
        player.position.x + player.width - platform.x <
          platform.x + platform.width - player.position.x
    · simp [hint, h1, h2, resolveCollision]
    · simp [hint, h1, h2, resolveCollision]
  · by_cases h3 :
        player.position.y + player.height - platform.y <
          platform.y + platform.height - player.position.y
    · simp [hint, h1, h3, resolveCollision]
    · simp [hint, h1, h3, resolveCollision]

/-- Witness for C2: a falling player whose previous feet were above a
one-way platform's top collides with direction `top`. -/
theorem c2_one_way_collision_witness :
    (checkPlatformCollision
      { position := { x := 10, y := 60 }, velocity := { x := 0, y := 2 }
        width := 30, height := 50
        isGrounded := false, isJumping := false, isDead := false
        isGrabbing := false, isOnRope := false, attachedRopeId := none
        ropeGrabCooldown := 0, facingRight := true
        animationState := AnimationState.falling }
      { id := "ow", x := 0, y := 100, width := 100, height := 10
        type := PlatformType.oneWay, movingConfig := none }
      { x := 10, y := 45 }).collides = true ∧
    (checkPlatformCollision
      { position := { x := 10, y := 60 }, velocity := { x := 0, y := 2 }
        width := 30, height := 50
        isGrounded := false, isJumping := false, isDead := false
        isGrabbing := false, isOnRope := false, attachedRopeId := none
        ropeGrabCooldown := 0, facingRight := true
        animationState := AnimationState.falling }
      { id := "ow", x := 0, y := 100, width := 100, height := 10
        type := PlatformType.oneWay, movingConfig := none }
      { x := 10, y := 45 }).direction = some Direction.top := by
  have h := c2_one_way_collision
    { position := { x := 10, y := 60 }, velocity := { x := 0, y := 2 }
      width := 30, height := 50
      isGrounded := false, isJumping := false, isDead := false
      isGrabbing := false, isOnRope := false, attachedRopeId := none
      ropeGrabCooldown := 0, facingRight := true
      animationState := AnimationState.falling }
    { id := "ow", x := 0, y := 100, width := 100, height := 10
      type := PlatformType.oneWay, movingConfig := none }
    { x := 10, y := 45 } rfl
  have hc := h.1.mpr
    ⟨by norm_num [rectIntersect, getPlayerRect, platformRect], by norm_num, by norm_num⟩
  exact ⟨hc, h.2.1 hc⟩

/-- Witness for C3: a player overlapping a solid platform with the
horizontal overlap strictly smaller resolves to the `right` direction and
is snapped flush to the platform's left edge. -/
theorem c3_solid_min_overlap_resolution_witness :
    (checkPlatformCollision
      { position := { x := 85, y := 80 }, velocity := { x := 3, y := 1 }
        width := 30, height := 50
        isGrounded := false, isJumping := false, isDead := false
        isGrabbing := false, isOnRope := false, attachedRopeId := none
        ropeGrabCooldown := 0, facingRight := true
        animationState := AnimationState.falling }
      { id := "sp", x := 100, y := 100, width := 100, height := 100
        type := PlatformType.solid, movingConfig := none }
      { x := 85, y := 80 }).direction = some Direction.right ∧
    (resolveCollision
      { position := { x := 85, y := 80 }, velocity := { x := 3, y := 1 }
        width := 30, height := 50
        isGrounded := false, isJumping := false, isDead := false
        isGrabbing := false, isOnRope := false, attachedRopeId := none
        ropeGrabCooldown := 0, facingRight := true
        animationState := AnimationState.falling }
      (checkPlatformCollision
        { position := { x := 85, y := 80 }, velocity := { x := 3, y := 1 }
          width := 30, height := 50
          isGrounded := false, isJumping := false, isDead := false
          isGrabbing := false, isOnRope := false, attachedRopeId := none
          ropeGrabCooldown := 0, facingRight := true
          animationState := AnimationState.falling }
        { id := "sp", x := 100, y := 100, width := 100, height := 100
          type := PlatformType.solid, movingConfig := none }
        { x := 85, y := 80 })
      { id := "sp", x := 100, y := 100, width := 100, height := 100
        type := PlatformType.solid, movingConfig := none }).position.x = 70 := by
  have h := c3_solid_min_overlap_resolution
    { position := { x := 85, y := 80 }, velocity := { x := 3, y := 1 }
      width := 30, height := 50
      isGrounded := false, isJumping := false, isDead := false
      isGrabbing := false, isOnRope := false, attachedRopeId := none
      ropeGrabCooldown := 0, facingRight := true
      animationState := AnimationState.falling }
    { id := "sp", x := 100, y := 100, width := 100, height := 100
      type := PlatformType.solid, movingConfig := none }
    { x := 85, y := 80 } rfl (by norm_num [rectIntersect, getPlayerRect, platformRect])
  have hcase := (h.2.1 (by norm_num)).1 (by norm_num)
  refine ⟨hcase.1, ?_⟩
  rw [hcase.2.2]
  norm_num

/-! ## C4: pushable path versus solid-platform path -/

/-- C4 counterexample: `checkPushableCollision` tests the was-above
condition before the minimum-overlap rule, so on the same rectangles it can
report `top` while the solid-platform path reports `right` — a difference
outside the claim's two allowed exceptions; moreover the claimed
`isJumping` exception does not exist, since `resolveCollision` also clears
`isJumping` on a `top` collision. -/
theorem c4_counterexample :
    (let player : Player :=
       { position := { x := 85, y := 80 }, velocity := { x := 0, y := 0 }
         width := 30, height := 50
         isGrounded := false, isJumping := true, isDead := false
         isGrabbing := false, isOnRope := false, attachedRopeId := none
         ropeGrabCooldown := 0, facingRight := true
         animationState := AnimationState.jumping }
     let pushable : PushableObject :=
       { id := "box", x := 100, y := 100, width := 100, height := 100
         velocity := { x := 0, y := 0 }, isBeingPushed := false }
     let prev : Vector2D := { x := 85, y := 40 }
     (checkPushableCollision player pushable prev).direction = some Direction.top ∧
     (checkPlatformCollision player (platformOfPushable pushable) prev).direction =
       some Direction.right ∧
     (resolveCollision player
       { collides := true, direction := some Direction.top, overlap := 30 }
       (platformOfPushable pushable)).isJumping = false) := by
  refine ⟨?_, ?_, rfl⟩
  · norm_num [checkPushableCollision, getPlayerRect, pushableRect, rectIntersect,
      min_def, max_def]
  · norm_num [checkPlatformCollision, platformOfPushable, getPlayerRect, platformRect,
      rectIntersect, min_def, max_def, solid_ne_oneWay]

/-- C4 amended: outside the was-above preemption (when it is not the case
that the previous bottom edge was within the 5-unit tolerance above the
pushable's top with non-negative vertical velocity), `checkPushableCollision`
computes exactly the same collision result as `checkPlatformCollision` on
the pushable's rectangle taken as a solid platform; and the pushable
resolution equals the platform resolution except exactly that a side
contact with the action input held sets `isGrabbing = true`.  (Both paths
clear `isJumping` on a `top` collision, so there is no `isJumping`
difference.) -/
theorem c4_pushable_refines_platform (player : Player) (pushable : PushableObject)
    (prev : Vector2D) (input : InputState)
    (hno : ¬(prev.y + player.height ≤ pushable.y + 5 ∧ player.velocity.y ≥ 0)) :
    checkPushableCollision player pushable prev =
      checkPlatformCollision player (platformOfPushable pushable) prev ∧
    (∀ c : CollisionResult,
      resolvePushableCollision player pushable input c =
        (let q := resolveCollision player c (platformOfPushable pushable)
         if (c.direction = some Direction.left ∨ c.direction = some Direction.right) ∧
             input.action = true
         then { q with isGrabbing := true } else q)) := by
  constructor
  · simp only [checkPushableCollision, checkPlatformCollision, platformOfPushable,
      getPlayerRect, platformRect, pushableRect, solid_ne_oneWay, reduceIte, hno,
      if_false]
  · intro c
    cases hd : c.direction with
    | none => simp [resolvePushableCollision, resolveCollision, hd]
    | some dir =>
      cases dir <;> cases ha : input.action <;>
        simp [resolvePushableCollision, resolveCollision, hd, ha, platformOfPushable]

/-- Witness for the amended C4: with the previous position below the
tolerance band, both paths report the same `right` collision on the same
rectangles. -/
theorem c4_pushable_refines_platform_witness :
    checkPushableCollision
      { position := { x := 85, y := 80 }, velocity := { x := 0, y := 0 }
        width := 30, height := 50
        isGrounded := false, isJumping := false, isDead := false
        isGrabbing := false, isOnRope := false, attachedRopeId := none
        ropeGrabCooldown := 0, facingRight := true
        animationState := AnimationState.falling }
      { id := "box", x := 100, y := 100, width := 100, height := 100
        velocity := { x := 0, y := 0 }, isBeingPushed := false }
      { x := 85, y := 80 } =
    checkPlatformCollision
      { position := { x := 85, y := 80 }, velocity := { x := 0, y := 0 }
        width := 30, height := 50
        isGrounded := false, isJumping := false, isDead := false
        isGrabbing := false, isOnRope := false, attachedRopeId := none
        ropeGrabCooldown := 0, facingRight := true
        animationState := AnimationState.falling }
      (platformOfPushable
        { id := "box", x := 100, y := 100, width := 100, height := 100
          velocity := { x := 0, y := 0 }, isBeingPushed := false })
      { x := 85, y := 80 } :=
  (c4_pushable_refines_platform
    { position := { x := 85, y := 80 }, velocity := { x := 0, y := 0 }
      width := 30, height := 50
      isGrounded := false, isJumping := false, isDead := false
      isGrabbing := false, isOnRope := false, attachedRopeId := none
      ropeGrabCooldown := 0, facingRight := true
      animationState := AnimationState.falling }
    { id := "box", x := 100, y := 100, width := 100, height := 100
      velocity := { x := 0, y := 0 }, isBeingPushed := false }
    { x := 85, y := 80 }
    { left := false, right := false, jump := false, action := false }
    (by norm_num)).1

/-! ## C7: moving platform endpoint clamping -/

/-- C7: for a `moving` platform with a horizontal path (`startX < endX`,
`startY = endY`, positive speed, direction ±1) whose x lies in
`[startX, endX]`, one `updateMovingPlatforms` step (the mapped
`movingPlatformStep`) keeps x in `[startX, endX]` for every positive
delta-time; when the advanced position reaches or passes an endpoint, x is
set exactly to that endpoint and the direction flips sign (it was heading
into that endpoint and leaves pointing away); the platform stays `moving`
with the same path, so the invariant re-applies on every later step. -/
theorem c7_moving_platform_bounds (platform : Platform) (config : MovingConfig)
    (deltaTime : ℚ)
    (htype : platform.type = PlatformType.moving)
    (hcfg : platform.movingConfig = some config)
    (hx : config.startX < config.endX)
    (hy : config.startY = config.endY)
    (hspeed : 0 < config.speed)
    (hdir : config.currentDirection = 1 ∨ config.currentDirection = -1)
    (hlo : config.startX ≤ platform.x) (hhi : platform.x ≤ config.endX)
    (hdt : 0 < deltaTime) :
    (let p := movingPlatformStep deltaTime platform
     let xm := platform.x + config.speed * config.currentDirection * (deltaTime / 16.67)
     (config.startX ≤ p.x ∧ p.x ≤ config.endX) ∧
     (config.endX ≤ xm →
       p.x = config.endX ∧
       p.movingConfig = some { config with currentDirection := -1 } ∧
       config.currentDirection = 1) ∧
     (xm ≤ config.startX →
       p.x = config.startX ∧
       p.movingConfig = some { config with currentDirection := 1 } ∧
       config.currentDirection = -1) ∧
     p.type = PlatformType.moving ∧
     (∃ d, (d = 1 ∨ d = -1) ∧
       p.movingConfig = some { config with currentDirection := d })) := by
  have hdt' : 0 < deltaTime / 16.67 := by positivity
  have hxne : config.startX ≠ config.endX := ne_of_lt hx
  set dt := deltaTime / 16.67 with hdtdef
  set xm := platform.x + config.speed * config.currentDirection * dt with hxm
  have hstep : movingPlatformStep deltaTime platform =
      { platform with
        x := if xm ≥ config.endX then config.endX
             else if xm ≤ config.startX then config.startX
             else xm
        movingConfig := some { config with currentDirection :=
          if xm ≥ config.endX then -1
          else if xm ≤ config.startX then 1
          else config.currentDirection } } := by
    simp only [movingPlatformStep, htype, ne_eq, not_true_eq_false, if_false, hcfg,
      hxne, not_false_eq_true, if_true, hy, reduceIte, ← hdtdef, ← hxm]
    split_ifs <;> rfl
  rw [hstep]
  constructor
  · -- the x bound
    by_cases hge : xm ≥ config.endX
    · simp [hge, le_of_lt hx]
    · by_cases hle : xm ≤ config.startX
      · simp [hge, hle, le_of_lt hx]
      · simp only [hge, hle, if_false]
        exact ⟨le_of_not_le hle, le_of_not_le hge⟩
  constructor
  · -- reaching the right endpoint
    intro hge
    have hd1 : config.currentDirection = 1 := by
      rcases hdir with h | h
      · exact h
      · exfalso
        have : xm < platform.x := by
          rw [hxm, h]
          nlinarith
        have : xm < config.endX := lt_of_lt_of_le this hhi
        linarith
    simp [ge_iff_le.mpr hge, hge, hd1]
  constructor
  · -- reaching the left endpoint
    intro hle
    have hd1 : config.currentDirection = -1 := by
      rcases hdir with h | h
      · exfalso
        have : platform.x < xm := by
          rw [hxm, h]
          nlinarith
        have : config.startX < xm := lt_of_le_of_lt hlo this
        linarith
      · exact h
    have hnge : ¬xm ≥ config.endX := by
      intro hge
      linarith
    simp [hnge, hle, hd1]
  constructor
  · exact htype
  · by_cases hge : xm ≥ config.endX
    · exact ⟨-1, Or.inr rfl, by simp [hge]⟩
    · by_cases hle : xm ≤ config.startX
      · exact ⟨1, Or.inl rfl, by simp [hge, hle]⟩
      · exact ⟨config.currentDirection, hdir, by simp [hge, hle]⟩

/-- Witness for C7 at the spec's own example `startX = 100, endX = 200,
speed = 2`: one 16.67 ms step from x = 150 stays within the path. -/
theorem c7_moving_platform_bounds_witness :
    (100 : ℚ) ≤ (movingPlatformStep 16.67
      { id := "mp", x := 150, y := 300, width := 80, height := 20
        type := PlatformType.moving
        movingConfig := some
          { startX := 100, endX := 200, startY := 300, endY := 300
            speed := 2, currentDirection := 1 } }).x ∧
    (movingPlatformStep 16.67
      { id := "mp", x := 150, y := 300, width := 80, height := 20
        type := PlatformType.moving
        movingConfig := some
          { startX := 100, endX := 200, startY := 300, endY := 300
            speed := 2, currentDirection := 1 } }).x ≤ 200 :=
  (c7_moving_platform_bounds
    { id := "mp", x := 150, y := 300, width := 80, height := 20
      type := PlatformType.moving
      movingConfig := some
        { startX := 100, endX := 200, startY := 300, endY := 300
          speed := 2, currentDirection := 1 } }
    { startX := 100, endX := 200, startY := 300, endY := 300
      speed := 2, currentDirection := 1 }
    16.67 rfl rfl (by norm_num) rfl (by norm_num) (Or.inl rfl)
    (by norm_num) (by norm_num) (by norm_num)).1

/-! ## C5: rope attach/detach round trip -/

lemma ropeGrabTry_attached (sinF cosF sqrtF : ℚ → ℚ) (player : Player)
    (input : InputState) (gd : ℚ) :
    ∀ (ropes : List Rope) (p : Player),
      ropeGrabTry sinF cosF sqrtF player input gd ropes = some p →
      p.ropeGrabCooldown = 15 ∧ p.isOnRope = true := by
  intro ropes
  induction ropes with
  | nil => intro p h; simp [ropeGrabTry] at h
  | cons rope rest ih =>
    intro p h
    rw [ropeGrabTry] at h
    split_ifs at h with hdist
    · rw [Option.some.injEq] at h
      rw [← h]
      exact ⟨rfl, rfl⟩
    · exact ih p h

/-- C5: attaching via `checkRopeGrab` sets `ropeGrabCooldown` to 15; a call
on an attached player with the jump input held leaves the player attached
and only decrements the cooldown as long as the decremented cooldown is
still positive; in the call where the decremented cooldown reaches zero, a
jump input detaches (clearing `isOnRope` and `attachedRopeId`), sets
`velocity.y = min(velocity.y - 5, -3)` — hence at most `-3` — and marks
`isJumping`. -/
theorem c5_rope_attach_detach_round_trip (sinF cosF sqrtF : ℚ → ℚ)
    (ropes : List Rope) (input : InputState) (gd : ℚ) (player : Player) :
    (player.isOnRope = false →
      (checkRopeGrab sinF cosF sqrtF player ropes input gd).1.isOnRope = true →
      (checkRopeGrab sinF cosF sqrtF player ropes input gd).1.ropeGrabCooldown = 15) ∧
    (player.isOnRope = true → input.jump = true →
      0 < max 0 (player.ropeGrabCooldown - 1) →
      (checkRopeGrab sinF cosF sqrtF player ropes input gd).1 =
        { player with ropeGrabCooldown := player.ropeGrabCooldown - 1 }) ∧
    (player.isOnRope = true → input.jump = true →
      max 0 (player.ropeGrabCooldown - 1) = 0 →
      ((checkRopeGrab sinF cosF sqrtF player ropes input gd).1.isOnRope = false ∧
       (checkRopeGrab sinF cosF sqrtF player ropes input gd).1.attachedRopeId = none ∧
       (checkRopeGrab sinF cosF sqrtF player ropes input gd).1.velocity.y =
         min (player.velocity.y - 5) (-3) ∧
       (checkRopeGrab sinF cosF sqrtF player ropes input gd).1.velocity.y ≤ -3 ∧
       (checkRopeGrab sinF cosF sqrtF player ropes input gd).1.isJumping = true)) := by
  refine ⟨?_, ?_, ?_⟩
  · intro h0 h1
    simp only [checkRopeGrab, h0, Bool.false_eq_true, if_false, reduceIte] at h1 ⊢
    by_cases hcond : input.action = true ∧
        (player.isGrounded = false ∨ player.velocity.y < 0)
    · rw [if_pos hcond] at h1 ⊢
      cases hm : ropeGrabTry sinF cosF sqrtF player input gd ropes with
      | none =>
        rw [hm] at h1
        have hpl : player.isOnRope = true := h1
        rw [h0] at hpl
        cases hpl
      | some p =>
        exact (ropeGrabTry_attached sinF cosF sqrtF player input gd ropes p hm).1
    · rw [if_neg hcond] at h1
      have hpl : player.isOnRope = true := h1
      rw [h0] at hpl
      cases hpl
  · intro h0 hj hpos
    have hx : 0 < player.ropeGrabCooldown - 1 := by
      by_contra hx
      push_neg at hx
      rw [max_eq_left hx] at hpos
      exact lt_irrefl 0 hpos
    have hmax : max 0 (player.ropeGrabCooldown - 1) = player.ropeGrabCooldown - 1 :=
      max_eq_right (le_of_lt hx)
    have hne0 : ¬(input.jump = true ∧ player.ropeGrabCooldown - 1 = 0) := by
      rintro ⟨_, h⟩
      rw [h] at hx
      exact lt_irrefl 0 hx
    have hnec : player.ropeGrabCooldown - 1 ≠ player.ropeGrabCooldown := by
      intro h
      have h2 := sub_eq_self.mp h
      norm_num at h2
    simp only [checkRopeGrab, h0, if_true, reduceIte, hmax, hne0, if_false]
    rw [if_pos hnec]
  · intro h0 hj h3
    simp only [checkRopeGrab, h0, if_true, reduceIte, hj, h3, and_self, if_true]
    refine ⟨?_, ?_, ?_, ?_, ?_⟩ <;> simp [min_le_right]

/-- Witness for C5: attaching to the sample rope sets the cooldown to 15; a
jump on the freshly attached player only decrements it to 14; a jump when
the cooldown decrements to zero releases with an upward velocity of at most
-3. -/
theorem c5_rope_attach_detach_round_trip_witness :
    (checkRopeGrab zeroFn zeroFn zeroFn airbornePlayer [sampleRope] inputAction
      60).1.ropeGrabCooldown = 15 ∧
    (checkRopeGrab zeroFn zeroFn zeroFn (onRopePlayer 15) [sampleRope] inputJump 60).1 =
      { onRopePlayer 15 with ropeGrabCooldown := 14 } ∧
    (checkRopeGrab zeroFn zeroFn zeroFn (onRopePlayer 1) [sampleRope] inputJump
      60).1.isOnRope = false ∧
    (checkRopeGrab zeroFn zeroFn zeroFn (onRopePlayer 1) [sampleRope] inputJump
      60).1.velocity.y ≤ -3 := by
  have h1 := (c5_rope_attach_detach_round_trip zeroFn zeroFn zeroFn [sampleRope]
    inputAction 60 airbornePlayer).1 rfl
    (by norm_num [checkRopeGrab, ropeGrabTry, airbornePlayer, sampleRope, inputAction,
      zeroFn, clamp, min_def, max_def])
  have h2 := (c5_rope_attach_detach_round_trip zeroFn zeroFn zeroFn [sampleRope]
    inputJump 60 (onRopePlayer 15)).2.1 rfl rfl
    (by norm_num [onRopePlayer, airbornePlayer, max_def])
  have h3 := (c5_rope_attach_detach_round_trip zeroFn zeroFn zeroFn [sampleRope]
    inputJump 60 (onRopePlayer 1)).2.2 rfl rfl
    (by norm_num [onRopePlayer, airbornePlayer, max_def])
  refine ⟨h1, ?_, h3.1, h3.2.2.2.1⟩
  rw [h2]
  norm_num [onRopePlayer, airbornePlayer]

/-! ## C6: rope distance bound -/

lemma le_of_mul_self_le_mul_self (a b : ℚ) (ha : 0 ≤ a) (hb : 0 ≤ b)
    (h : a * a ≤ b * b) : a ≤ b := by
  by_contra hab
  push_neg at hab
  exact absurd h (not_le.mpr (mul_self_lt_mul_self hb hab))

/-- C6: for an attached player, one step of the soft-spring
`updateRopePhysics` leaves the player's center within Euclidean distance
`1.05 * rope.length` of the anchor, for every input, delta-time and value
of the swing constants.  `hd0`/`hdsq` state the defining property of
`Math.sqrt` at the one argument the bound depends on (the squared anchor
distance of the post-integration center); `dist` is the final Euclidean
center distance, characterised by its square.  Since the bound holds for
every input state, it holds at every frame boundary of repeated steps. -/
theorem c6_rope_distance_bound (sqrtF : ℚ → ℚ) (atan2F : ℚ → ℚ → ℚ)
    (swingAccel airRes maxSwing : ℚ) (rope : Rope) (player : Player)
    (input : InputState) (deltaTime : ℚ)
    (hon : player.isOnRope = true) (hid : player.attachedRopeId = some rope.id)
    (hL : 0 ≤ rope.length)
    (hd0 : 0 ≤ sqrtF
      (ropeMoveDistSq sqrtF swingAccel airRes maxSwing rope player input deltaTime))
    (hdsq : sqrtF
        (ropeMoveDistSq sqrtF swingAccel airRes maxSwing rope player input deltaTime) *
      sqrtF
        (ropeMoveDistSq sqrtF swingAccel airRes maxSwing rope player input deltaTime) =
      ropeMoveDistSq sqrtF swingAccel airRes maxSwing rope player input deltaTime)
    (dist : ℚ) (hdist0 : 0 ≤ dist)
    (hdistsq : dist * dist =
      playerCenterDistSq
        (updateRopePhysics sqrtF atan2F swingAccel airRes maxSwing rope player input
          deltaTime).2 rope) :
    dist ≤ 1.05 * rope.length := by
  have hb : (0 : ℚ) ≤ 1.05 * rope.length := mul_nonneg (by norm_num) hL
  apply le_of_mul_self_le_mul_self dist (1.05 * rope.length) hdist0 hb
  have hguard : ¬¬(player.isOnRope = true ∧ player.attachedRopeId = some rope.id) :=
    not_not_intro ⟨hon, hid⟩
  simp only [updateRopePhysics, if_neg hguard, playerCenterDistSq] at hdistsq
  simp only [ropeMoveDistSq] at hd0 hdsq
  set c4 := ropeCenterAfterMove sqrtF swingAccel airRes maxSwing rope player input
    deltaTime with hc4def
  set d := sqrtF ((c4.1 - rope.anchorX) * (c4.1 - rope.anchorX) +
    (c4.2 - rope.anchorY) * (c4.2 - rope.anchorY)) with hddef
  rw [hdistsq]
  by_cases h1 : d > 0
  · rw [if_pos h1]
    have hdne : d ≠ 0 := ne_of_gt h1
    set r1 := (c4.1 - rope.anchorX) / d with hr1
    set r2 := (c4.2 - rope.anchorY) / d with hr2
    have hru : r1 * d = c4.1 - rope.anchorX := by
      rw [hr1]; exact div_mul_cancel₀ _ hdne
    have hrw : r2 * d = c4.2 - rope.anchorY := by
      rw [hr2]; exact div_mul_cancel₀ _ hdne
    have hd2 : d * d ≠ 0 := mul_ne_zero hdne hdne
    have hunit : r1 * r1 + r2 * r2 = 1 := by
      have hq : (r1 * r1 + r2 * r2) * (d * d) = 1 * (d * d) := by
        have h2 : r1 * d * (r1 * d) + r2 * d * (r2 * d) = d * d := by
          rw [hru, hrw]; exact hdsq.symm
        linear_combination h2
      exact mul_right_cancel₀ hd2 hq
    have hc1 : c4.1 = rope.anchorX + r1 * d := by linarith [hru]
    have hc2 : c4.2 = rope.anchorY + r2 * d := by linarith [hrw]
    by_cases h2 : d > rope.length
    · rw [if_pos h2]
      by_cases h4 : d > rope.length * 1.05
      · rw [if_pos h4]
        dsimp only
        apply le_of_eq
        linear_combination ((1.05 * rope.length) * (1.05 * rope.length)) * hunit
      · rw [if_neg h4]
        dsimp only
        rw [hc1, hc2]
        refine le_trans (le_of_eq (?_ :
          _ = (0.7 * d + 0.3 * rope.length) * (0.7 * d + 0.3 * rope.length))) ?_
        · linear_combination
            ((0.7 * d + 0.3 * rope.length) * (0.7 * d + 0.3 * rope.length)) * hunit
        · have hs0 : 0 ≤ 0.7 * d + 0.3 * rope.length := by linarith
          have hsB : 0.7 * d + 0.3 * rope.length ≤ 1.05 * rope.length := by
            rw [not_lt] at h4
            linarith
          exact mul_self_le_mul_self hs0 hsB
    · rw [if_neg h2]
      have hdL : d ≤ rope.length := not_lt.mp h2
      by_cases h3 : d < rope.length * 0.95
      · rw [if_pos h3]
        dsimp only
        refine le_trans (le_of_eq (?_ : _ = d * d)) ?_
        · linear_combination (-1 : ℚ) * hdsq
        · nlinarith
      · rw [if_neg h3]
        dsimp only
        refine le_trans (le_of_eq (?_ : _ = d * d)) ?_
        · linear_combination (-1 : ℚ) * hdsq
        · nlinarith
  · rw [if_neg h1]
    dsimp only
    refine le_trans (le_of_eq (?_ : _ = d * d)) ?_
    · linear_combination (-1 : ℚ) * hdsq
    · have hd' : d = 0 := le_antisymm (not_lt.mp h1) hd0
      rw [hd']
      nlinarith

/-- Witness for C6: a player attached to the sample rope whose
post-integration center sits at distance 5 from the anchor (a 3-4-5
configuration, so the square root is exact) stays within `1.05 * length`. -/
theorem c6_rope_distance_bound_witness :
    (5 : ℚ) ≤ 1.05 * sampleRope.length :=
  c6_rope_distance_bound (fun _ => 5) (fun _ _ => 0) 0 1 100 sampleRope
    { onRopePlayer 0 with position := { x := -12, y := -541 / 25 } }
    inputNone 16.67 rfl rfl (by norm_num [sampleRope])
    (by norm_num)
    (by norm_num [ropeMoveDistSq, ropeCenterAfterMove, ropeSwingVelocity, clamp,
      GAME_CONFIG, onRopePlayer, airbornePlayer, sampleRope, inputNone, min_def, max_def])
    5 (by norm_num)
    (by norm_num [updateRopePhysics, ropeCenterAfterMove, ropeSwingVelocity,
      playerCenterDistSq, clamp, GAME_CONFIG, onRopePlayer, airbornePlayer, sampleRope,
      inputNone, min_def, max_def])

/-! ## C9: dangling rope reference -/

/-- C9: with `isOnRope = true` and an `attachedRopeId` that resolves to no
rope in the level's rope list, the per-frame rope processing
(`checkRopeGrab` followed by the orchestrator's attached-rope update) does
NOT detach the player: both `isOnRope` and the dangling `attachedRopeId`
survive the frame (only the cooldown is decremented), contradicting the
claimed defensive detach.  No null dereference occurs, because the
orchestrator skips the rope-physics call when the lookup fails. -/
theorem c9_dangling_rope_not_detached :
    (let stale : Player :=
       { airbornePlayer with
         isOnRope := true, attachedRopeId := some "ghost", ropeGrabCooldown := 5
         animationState := AnimationState.swinging }
     let out := ropeFrameStep zeroFn zeroFn zeroFn (fun _ _ => 0) 0 1 10
       stale [sampleRope] inputNone 60 16.67
     out.1.isOnRope = true ∧ out.1.attachedRopeId = some "ghost" ∧
     out.1.ropeGrabCooldown = 4) := by
  have hne : ("r1" : String) ≠ "ghost" := by decide
  norm_num [ropeFrameStep, checkRopeGrab, airbornePlayer, sampleRope, inputNone,
    zeroFn, max_def, List.find?, hne]

/-! ## C8: pressure plates drive their target hazards -/

lemma processSwitch_fst_hazfree (pr : Rectangle) (pus : List PushableObject)
    (act : Bool) (sw : Switch) (hz hz' : List Hazard) :
    (processSwitch pr pus act sw hz).1 = (processSwitch pr pus act sw hz').1 := by
  unfold processSwitch
  split_ifs <;> rfl

lemma pass_fst (pr : Rectangle) (pus : List PushableObject) (act : Bool) :
    ∀ (L : List Switch) (hz : List Hazard),
      (switchHazardPass pr pus act L hz).1 =
        L.map (fun s => (processSwitch pr pus act s []).1) := by
  intro L
  induction L with
  | nil => intro hz; simp [switchHazardPass]
  | cons sw rest ih =>
    intro hz
    simp only [switchHazardPass, List.map_cons, List.cons.injEq]
    exact ⟨processSwitch_fst_hazfree pr pus act sw hz [], ih _⟩

lemma processSwitch_snd_get_notmem (pr : Rectangle) (pus : List PushableObject)
    (act : Bool) (sw' : Switch) (hz : List Hazard) (i : ℕ) (e : Hazard)
    (he : hz[i]? = some e) (hid : e.id ∉ sw'.targetIds) :
    (processSwitch pr pus act sw' hz).2[i]? = some e := by
  unfold processSwitch
  by_cases hty : sw'.type = SwitchType.pressurePlate
  · rw [if_pos hty]
    dsimp only
    by_cases hch : isPlatePressed pr pus sw' ≠ sw'.isActivated
    · rw [if_pos hch, List.getElem?_map, he, Option.map_some', if_neg hid]
    · rw [if_neg hch]
      exact he
  · rw [if_neg hty]
    by_cases hlever : (rectIntersect pr (switchRect sw') && act && !sw'.isActivated) = true
    · rw [if_pos hlever]
      dsimp only
      rw [List.getElem?_map, he, Option.map_some', if_neg hid]
    · rw [if_neg hlever]
      exact he

lemma processSwitch_snd_get_plate (pr : Rectangle) (pus : List PushableObject)
    (act : Bool) (sw : Switch) (hz : List Hazard) (i : ℕ) (e : Hazard)
    (hty : sw.type = SwitchType.pressurePlate)
    (he : hz[i]? = some e) (hid : e.id ∈ sw.targetIds) :
    (processSwitch pr pus act sw hz).2[i]? =
      some (if isPlatePressed pr pus sw ≠ sw.isActivated
            then { e with isActive := !isPlatePressed pr pus sw } else e) := by
  unfold processSwitch
  rw [if_pos hty]
  dsimp only
  by_cases hch : isPlatePressed pr pus sw ≠ sw.isActivated
  · rw [if_pos hch, if_pos hch, List.getElem?_map, he, Option.map_some', if_pos hid]
  · rw [if_neg hch, if_neg hch]
    exact he

lemma pass_entry_stable (pr : Rectangle) (pus : List PushableObject) (act : Bool)
    (sw : Switch) (hty : sw.type = SwitchType.pressurePlate) (h0 : Hazard) :
    ∀ (L : List Switch) (hz : List Hazard) (i : ℕ),
      (∀ sw' ∈ L, h0.id ∈ sw'.targetIds → sw' = sw) →
      hz[i]? = some { h0 with isActive := !isPlatePressed pr pus sw } →
      (switchHazardPass pr pus act L hz).2[i]? =
        some { h0 with isActive := !isPlatePressed pr pus sw } := by
  intro L
  induction L with
  | nil => intro hz i _ he; simpa [switchHazardPass] using he
  | cons sw' rest ih =>
    intro hz i huniq he
    simp only [switchHazardPass]
    apply ih _ _ (fun s hs hmem => huniq s (List.mem_cons_of_mem _ hs) hmem)
    by_cases hmem : h0.id ∈ sw'.targetIds
    · have hsw : sw' = sw := huniq sw' (List.mem_cons_self _ _) hmem
      subst hsw
      rw [processSwitch_snd_get_plate pr pus act sw' hz i _ hty he hmem]
      split_ifs <;> rfl
    · exact processSwitch_snd_get_notmem pr pus act sw' hz i _ he hmem

lemma pass_entry_main (pr : Rectangle) (pus : List PushableObject) (act : Bool)
    (sw : Switch) (hty : sw.type = SwitchType.pressurePlate) (h0 : Hazard)
    (htar : h0.id ∈ sw.targetIds) (hcons : h0.isActive = !sw.isActivated) :
    ∀ (L : List Switch) (hz : List Hazard) (i : ℕ),
      (∀ sw' ∈ L, h0.id ∈ sw'.targetIds → sw' = sw) →
      hz[i]? = some h0 →
      sw ∈ L →
      (switchHazardPass pr pus act L hz).2[i]? =
        some { h0 with isActive := !isPlatePressed pr pus sw } := by
  intro L
  induction L with
  | nil => intro hz i _ _ hmem; cases hmem
  | cons sw' rest ih =>
    intro hz i huniq he hswmem
    simp only [switchHazardPass]
    by_cases hsw' : sw' = sw
    · subst hsw'
      have hstep := processSwitch_snd_get_plate pr pus act sw' hz i h0 hty he htar
      by_cases hch : isPlatePressed pr pus sw' ≠ sw'.isActivated
      · rw [if_pos hch] at hstep
        exact pass_entry_stable pr pus act sw' hty h0 rest _ i
          (fun s hs hmem => huniq s (List.mem_cons_of_mem _ hs) hmem) hstep
      · rw [if_neg hch] at hstep
        rw [not_not] at hch
        have hTh : ({ h0 with isActive := !isPlatePressed pr pus sw' } : Hazard) = h0 := by
          rw [hch, ← hcons]
        exact pass_entry_stable pr pus act sw' hty h0 rest _ i
          (fun s hs hmem => huniq s (List.mem_cons_of_mem _ hs) hmem) (by rw [hTh]; exact hstep)
    · have hnot : h0.id ∉ sw'.targetIds := fun hmem => hsw' (huniq sw'
        (List.mem_cons_self _ _) hmem)
      have he' := processSwitch_snd_get_notmem pr pus act sw' hz i h0 he hnot
      have hrest : sw ∈ rest := by
        rcases List.mem_cons.mp hswmem with hEq | hmem
        · exact absurd hEq.symm hsw'
        · exact hmem
      exact ih _ _ (fun s hs hmem => huniq s (List.mem_cons_of_mem _ hs) hmem) he' hrest

/-- C8: after the orchestrator's switch pass, a pressure plate's
`isActivated` equals the live overlap test (`isPlatePressed`: the player's
rectangle or some pushable's rectangle strictly overlaps the plate), and a
hazard targeted by that plate and by no other switch has `isActive` equal
to the negation of that overlap, provided it was consistent with the plate
before the pass (`isActive = !isActivated`, which holds initially and is
re-established by every pass).  In particular a pushable moved onto the
plate deactivates the hazard within one step, and it reactivates the step
after the pushable leaves. -/
theorem c8_pressure_plate_live_toggle (playerRect : Rectangle)
    (pushables : List PushableObject) (action : Bool)
    (switches : List Switch) (hazards : List Hazard)
    (sw : Switch) (h0 : Hazard) (j i : ℕ)
    (hj : switches[j]? = some sw) (hi : hazards[i]? = some h0)
    (hty : sw.type = SwitchType.pressurePlate)
    (htar : h0.id ∈ sw.targetIds)
    (huniq : ∀ sw' ∈ switches, h0.id ∈ sw'.targetIds → sw' = sw)
    (hcons : h0.isActive = !sw.isActivated) :
    ((switchHazardPass playerRect pushables action switches hazards).1[j]? =
      some { sw with isActivated := isPlatePressed playerRect pushables sw }) ∧
    ((switchHazardPass playerRect pushables action switches hazards).2[i]? =
      some { h0 with isActive := !isPlatePressed playerRect pushables sw }) := by
  have hswmem : sw ∈ switches := by
    obtain ⟨hlt, rfl⟩ := List.getElem?_eq_some.mp hj
    exact List.getElem_mem hlt
  constructor
  · rw [pass_fst, List.getElem?_map, hj, Option.map_some']
    have : (processSwitch playerRect pushables action sw []).1 =
        { sw with isActivated := isPlatePressed playerRect pushables sw } := by
      unfold processSwitch
      rw [if_pos hty]
    rw [this]
  · exact pass_entry_main playerRect pushables action sw hty h0 htar hcons
      switches hazards i huniq hi hswmem

/-- Witness for C8: a pushable sitting on a pressure plate turns the
plate's sole target hazard off in one pass. -/
theorem c8_pressure_plate_live_toggle_witness :
    (switchHazardPass { x := 1000, y := 1000, width := 30, height := 50 }
      [{ id := "box", x := 10, y := 0, width := 20, height := 20
         velocity := { x := 0, y := 0 }, isBeingPushed := false }] false
      [{ id := "pp", x := 0, y := 0, width := 50, height := 10
         type := SwitchType.pressurePlate, isActivated := false, targetIds := ["hz1"] }]
      [{ id := "hz1", x := 500, y := 0, width := 40, height := 40,
         isActive := true }]).2[0]? =
      some { id := "hz1", x := 500, y := 0, width := 40, height := 40,
             isActive := false } := by
  have h := (c8_pressure_plate_live_toggle
    { x := 1000, y := 1000, width := 30, height := 50 }
    [{ id := "box", x := 10, y := 0, width := 20, height := 20
       velocity := { x := 0, y := 0 }, isBeingPushed := false }] false
    [{ id := "pp", x := 0, y := 0, width := 50, height := 10
       type := SwitchType.pressurePlate, isActivated := false, targetIds := ["hz1"] }]
    [{ id := "hz1", x := 500, y := 0, width := 40, height := 40, isActive := true }]
    { id := "pp", x := 0, y := 0, width := 50, height := 10
      type := SwitchType.pressurePlate, isActivated := false, targetIds := ["hz1"] }
    { id := "hz1", x := 500, y := 0, width := 40, height := 40, isActive := true }
    0 0 rfl rfl rfl (by simp)
    (by intro s hs _; exact List.mem_singleton.mp hs) rfl).2
  rw [h]
  norm_num [isPlatePressed, rectIntersect, switchRect, pushableRect]

end Limbo
